import Mathlib

/-!
Verification development for the `multicube` spectral-cube fitting
extension (`subcube.py`, `multicube.py`).

The repository is Python-2-era numpy code.  The embedding below translates
the relevant functions into Lean:

* floating-point values are modelled as exact rationals (`ℚ`); results of
  `numpy.std` (which involves a square root) are modelled as exact reals;
* numpy arrays are modelled as lists (1-d), lists of lists (2-d), or
  index functions for cubes;
* Python exceptions are modelled with `Except` over an explicit error type;
* `map(len, ...)` follows Python 2 semantics (`map` returns a list).
-/

namespace Multicube

/-- Errors raised by the Python code paths modelled below. -/
inductive PyErr where
  | memoryError
  | unboundLocal
  | indexError
  | valueError
  | notImplementedError
  | typeError
  deriving DecidableEq

/-! ## Parameter grid builder (`SubCube._grid_parspace`, lines 134-174)

`np.linspace(i_min, i_max, i_len)` over exact rationals, and the
edge-clipping slice `[1:][:-1]`. -/

/-- `np.linspace a b n`: `n` equally spaced points from `a` to `b` inclusive. -/
def linspace (a b : ℚ) (n : ℕ) : List ℚ :=
  if n = 0 then []
  else if n = 1 then [a]
  else (List.range n).map (fun (i : ℕ) => a + (i : ℚ) * (b - a) / ((n : ℚ) - 1))

/-- One dimension of the parameter space: the body of the loop in
`_grid_parspace`.  With `clip = true` the slice length is `finesse + 2`
(`finesse + clip_edges*2`) and the two edge points are dropped
(`np.linspace(i_min, i_max, i_len)[1:][:-1]`); otherwise the slice is
`np.linspace(i_min, i_max, finesse)`. -/
def parSlice (a b : ℚ) (finesse : ℕ) (clip : Bool) : List ℚ :=
  if clip then ((linspace a b (finesse + 2)).drop 1).dropLast
  else linspace a b finesse

/-- The `for i_len, i_min, i_max in zip(finesse+clip_edges*2, minpars, maxpars)`
loop: one 1-d slice per parameter dimension (`zip` truncates at the
shortest input, as in Python). -/
def parSpace : List ℚ → List ℚ → List ℕ → Bool → List (List ℚ)
  | a :: as, b :: bs, f :: fs, clip => parSlice a b f clip :: parSpace as bs fs clip
  | _, _, _, _ => []

/-- `np.atleast_1d(finesse) * np.ones(npars)`: a scalar finesse is broadcast
to a length-`npars` vector. -/
def conformFinesse (npars : ℕ) (finesse : ℕ) : List ℕ :=
  List.replicate npars finesse

/-- Row-major Cartesian product of a list of 1-d slices: the first list
varies slowest. -/
def listProd : List (List ℚ) → List (List ℚ)
  | [] => [[]]
  | xs :: rest => xs.flatMap (fun v => (listProd rest).map (fun t => v :: t))

/-- Swap the first two entries of a list (identity on shorter lists).
`np.meshgrid` with its default `indexing='xy'` produces arrays of shape
`(len(p1), len(p0), len(p2), ...)`, so the C-order flattening performed by
`reshape(npars, nguesses).T` enumerates the Cartesian product with the
first two dimensions interchanged. -/
def swap01 : List α → List α
  | a :: b :: rest => b :: a :: rest
  | l => l

/-- `SubCube._grid_parspace`: the guess grid as the list of its rows, in the
order produced by
`np.array(np.meshgrid(*par_space)).reshape(npars, nguesses).T`. -/
def gridParspace (minpars maxpars : List ℚ) (finesse : List ℕ) (clip : Bool) :
    List (List ℚ) :=
  (listProd (swap01 (parSpace minpars maxpars finesse clip))).map swap01

/-! ## Grid expansion (`SubCube.expand_guess_grid`, lines 108-132) -/

/-- The state touched by `expand_guess_grid`: the stored guess grid plus the
recorded parameter bounds in `fiteach_args`. -/
structure GuessState where
  guessGrid : List (List ℚ)
  minpars : List ℚ
  maxpars : List ℚ

/-- `SubCube.expand_guess_grid`: build a new sub-grid from the new bounds,
append it to the stored grid (`np.append(self.guess_grid, guess_grid, axis=0)`),
and widen the recorded bounds
(`np.vstack([...]).min(axis=0)` / `.max(axis=0)`). -/
def expandGuessGrid (st : GuessState) (minpars maxpars : List ℚ)
    (finesse : List ℕ) : GuessState :=
  let gg := gridParspace minpars maxpars finesse true
  { guessGrid := st.guessGrid ++ gg
    minpars := List.zipWith min st.minpars minpars
    maxpars := List.zipWith max st.maxpars maxpars }

end Multicube

namespace Multicube

/-! ## Lemmas about the grid builder -/

lemma length_linspace (a b : ℚ) (n : ℕ) : (linspace a b n).length = n := by
  unfold linspace
  split
  · next h => simp [h]
  · split
    · next h => simp [h]
    · rw [List.length_map, List.length_range]

lemma parSlice_clip_eq (a b : ℚ) (f : ℕ) :
    parSlice a b f true =
      (List.range f).map (fun (k : ℕ) => a + ((k : ℚ) + 1) * (b - a) / ((f : ℚ) + 1)) := by
  unfold parSlice linspace
  rw [if_pos rfl, if_neg (by omega), if_neg (by omega)]
  have h2 : f + 2 = (f + 1) + 1 := by omega
  rw [h2, List.range_succ_eq_map]
  simp only [List.map_cons, List.drop_succ_cons, List.drop_zero, List.map_map]
  rw [List.range_succ, List.map_append]
  simp only [List.map_singleton]
  rw [List.dropLast_concat]
  apply List.map_congr_left
  intro k _
  simp only [Function.comp_apply, Nat.succ_eq_add_one]
  push_cast
  ring

lemma length_parSlice_clip (a b : ℚ) (f : ℕ) : (parSlice a b f true).length = f := by
  rw [parSlice_clip_eq]; simp

lemma mem_parSlice_strict {a b x : ℚ} {f : ℕ} (hab : a < b)
    (hx : x ∈ parSlice a b f true) : a < x ∧ x < b := by
  rw [parSlice_clip_eq] at hx
  rcases List.mem_map.1 hx with ⟨k, hk, rfl⟩
  have hkf : k < f := List.mem_range.1 hk
  have hba : (0 : ℚ) < b - a := sub_pos.2 hab
  have hf1 : (0 : ℚ) < (f : ℚ) + 1 := by positivity
  have hk1 : ((k : ℚ) + 1) < (f : ℚ) + 1 := by
    have : (k : ℚ) < (f : ℚ) := by exact_mod_cast hkf
    linarith
  constructor
  · have hpos : 0 < ((k : ℚ) + 1) * (b - a) / ((f : ℚ) + 1) := by positivity
    linarith
  · have hlt : ((k : ℚ) + 1) * (b - a) < ((f : ℚ) + 1) * (b - a) :=
      mul_lt_mul_of_pos_right hk1 hba
    have : ((k : ℚ) + 1) * (b - a) / ((f : ℚ) + 1) < b - a := by
      rw [div_lt_iff hf1]
      linarith [hlt]
    linarith

lemma listProd_length (ls : List (List ℚ)) :
    (listProd ls).length = (ls.map List.length).prod := by
  induction ls with
  | nil => rfl
  | cons xs rest ih =>
    simp only [listProd, List.length_flatMap, List.map_map, List.map_cons,
      List.prod_cons]
    have : ∀ v : ℚ, ((listProd rest).map (fun t => v :: t)).length
        = (rest.map List.length).prod := by
      intro v; simp [ih]
    induction xs with
    | nil => simp
    | cons x xs ihx =>
      simp only [List.map_cons, List.sum_cons, List.length_cons] at *
      rw [Function.comp_apply, List.length_map, ih, ihx]
      ring

lemma mem_listProd {v : List ℚ} {ls : List (List ℚ)} :
    v ∈ listProd ls ↔ List.Forall₂ (· ∈ ·) v ls := by
  induction ls generalizing v with
  | nil =>
    simp only [listProd, List.mem_singleton, List.forall₂_nil_right_iff]
  | cons xs rest ih =>
    simp only [listProd, List.mem_flatMap, List.mem_map]
    constructor
    · rintro ⟨a, ha, t, ht, rfl⟩
      exact List.Forall₂.cons ha (ih.mp ht)
    · intro h
      cases h with
      | cons h1 h2 => exact ⟨_, h1, _, ih.mpr h2, rfl⟩

lemma swap01_swap01 (l : List α) : swap01 (swap01 l) = l := by
  rcases l with _ | ⟨a, _ | ⟨b, rest⟩⟩ <;> rfl

lemma forall₂_swap01 {R : α → β → Prop} {l1 : List α} {l2 : List β}
    (h : List.Forall₂ R l1 l2) : List.Forall₂ R (swap01 l1) (swap01 l2) := by
  cases h with
  | nil => exact .nil
  | cons h1 htail =>
    cases htail with
    | nil => exact .cons h1 .nil
    | cons h2 htail2 => exact .cons h2 (.cons h1 htail2)

lemma map_swap01 (f : α → β) (l : List α) :
    (swap01 l).map f = swap01 (l.map f) := by
  rcases l with _ | ⟨a, _ | ⟨b, rest⟩⟩ <;> rfl

lemma prod_swap01 (l : List ℕ) : (swap01 l).prod = l.prod := by
  rcases l with _ | ⟨a, _ | ⟨b, rest⟩⟩ <;> simp [swap01] <;> ring

lemma map_length_parSpace (mins maxs : List ℚ) (fins : List ℕ)
    (h1 : mins.length = maxs.length) (h2 : fins.length = mins.length) :
    (parSpace mins maxs fins true).map List.length = fins := by
  induction mins generalizing maxs fins with
  | nil =>
    cases fins with
    | nil => cases maxs <;> rfl
    | cons f fs => simp at h2
  | cons a as ih =>
    cases maxs with
    | nil => simp at h1
    | cons b bs =>
      cases fins with
      | nil => simp at h2
      | cons f fs =>
        simp only [parSpace, List.map_cons, length_parSlice_clip]
        rw [ih bs fs (by simpa using h1) (by simpa using h2)]

lemma parSpace_mem_strict (mins maxs : List ℚ) (fins : List ℕ) (v : List ℚ)
    (hlt : List.Forall₂ (· < ·) mins maxs)
    (hlen : fins.length = mins.length)
    (hv : List.Forall₂ (· ∈ ·) v (parSpace mins maxs fins true)) :
    List.Forall₂ (· < ·) mins v ∧ List.Forall₂ (· < ·) v maxs := by
  induction hlt generalizing fins v with
  | nil =>
    cases fins with
    | nil =>
      cases hv
      exact ⟨.nil, .nil⟩
    | cons f fs => simp at hlen
  | @cons a b as bs hab htail ih =>
    cases fins with
    | nil => simp at hlen
    | cons f fs =>
      cases hv with
      | cons hx hvs =>
        have hstrict := mem_parSlice_strict hab hx
        have := ih fs _ (by simpa using hlen) hvs
        exact ⟨.cons hstrict.1 this.1, .cons hstrict.2 this.2⟩

/-- C1 (counterexample): the claim allows `minpars[i] = maxpars[i]`, but with
`minpars = maxpars = [0]` and `finesse = [1]` the generated grid is `[[0]]`
and `0` does not lie strictly between the bounds `0` and `0`. -/
theorem grid_parspace_min_eq_max_cex :
    ¬ ((gridParspace [0] [0] [1] true).length = 1 ∧
       ∀ v ∈ gridParspace [0] [0] [1] true, ∀ x ∈ v,
         (0 : ℚ) < x ∧ x < (0 : ℚ)) := by
  rintro ⟨-, h⟩
  have hgrid : gridParspace [0] [0] [1] true = [[0]] := by
    norm_num [gridParspace, parSpace, parSlice, linspace, listProd, swap01,
      List.range_succ]
  rw [hgrid] at h
  have := h [0] (by simp) 0 (by simp)
  exact absurd this.1 (lt_irrefl 0)

/-- C1 (amended): for bounds with `minpars[i] < maxpars[i]` strictly in every
dimension and per-dimension positive integer finesse, `_grid_parspace` with
`clip_edges=True` returns exactly `∏ finesse[i]` parameter vectors, each of
whose components lies strictly between the corresponding bounds.  (A scalar
finesse is first broadcast to a vector, `conformFinesse`.) -/
theorem grid_parspace_count_and_strict_bounds
    (mins maxs : List ℚ) (fins : List ℕ)
    (hlt : List.Forall₂ (· < ·) mins maxs)
    (hlen : fins.length = mins.length)
    (hpos : ∀ f ∈ fins, 0 < f) :
    (gridParspace mins maxs fins true).length = fins.prod ∧
    ∀ v ∈ gridParspace mins maxs fins true,
      List.Forall₂ (· < ·) mins v ∧ List.Forall₂ (· < ·) v maxs := by
  constructor
  · unfold gridParspace
    rw [List.length_map, listProd_length, map_swap01, prod_swap01,
      map_length_parSpace mins maxs fins hlt.length_eq hlen]
  · intro v hv
    unfold gridParspace at hv
    rcases List.mem_map.1 hv with ⟨w, hw, rfl⟩
    have hmem : List.Forall₂ (· ∈ ·) (swap01 w) (swap01 (swap01 (parSpace mins maxs fins true))) :=
      forall₂_swap01 (mem_listProd.1 hw)
    rw [swap01_swap01] at hmem
    exact parSpace_mem_strict mins maxs fins _ hlt hlen hmem

/-- Witness for C1: concrete bounds `[0,-1] < [1,1]`, finesse `[2,3]`. -/
theorem grid_parspace_count_and_strict_bounds_witness :
    (gridParspace [0, -1] [1, 1] [2, 3] true).length = ([2, 3] : List ℕ).prod ∧
    ∀ v ∈ gridParspace [0, -1] [1, 1] [2, 3] true,
      List.Forall₂ (· < ·) [0, -1] v ∧ List.Forall₂ (· < ·) v [1, 1] :=
  grid_parspace_count_and_strict_bounds [0, -1] [1, 1] [2, 3]
    (by norm_num [List.forall₂_cons]) (by norm_num) (by norm_num)

end Multicube

namespace Multicube

/-! ## Lemmas for the expand operation -/

lemma forall₂_zipWith_min_le (a b : List ℚ) (h : a.length = b.length) :
    List.Forall₂ (· ≤ ·) (List.zipWith min a b) a := by
  induction a generalizing b with
  | nil => cases b <;> simp_all
  | cons x xs ih =>
    cases b with
    | nil => simp at h
    | cons y ys =>
      exact .cons (min_le_left x y) (ih ys (by simpa using h))

lemma forall₂_le_zipWith_max (a b : List ℚ) (h : a.length = b.length) :
    List.Forall₂ (· ≤ ·) a (List.zipWith max a b) := by
  induction a generalizing b with
  | nil => cases b <;> simp_all
  | cons x xs ih =>
    cases b with
    | nil => simp at h
    | cons y ys =>
      exact .cons (le_max_left x y) (ih ys (by simpa using h))

/-- C2: `expand_guess_grid` appends the newly generated sub-grid after the
old grid entries (order preserved), widens the recorded bounds to the
element-wise min / max (so they never narrow), and two successive
expansions with ranges `R1` then `R2` produce bounds equal to the
element-wise min / max across the original bounds, `R1` and `R2`. -/
theorem expand_guess_grid_spec (st : GuessState)
    (m1 x1 m2 x2 : List ℚ) (f1 f2 : List ℕ)
    (hm1 : st.minpars.length = m1.length)
    (hx1 : st.maxpars.length = x1.length) :
    (expandGuessGrid st m1 x1 f1).guessGrid
        = st.guessGrid ++ gridParspace m1 x1 f1 true
    ∧ (expandGuessGrid st m1 x1 f1).minpars = List.zipWith min st.minpars m1
    ∧ (expandGuessGrid st m1 x1 f1).maxpars = List.zipWith max st.maxpars x1
    ∧ List.Forall₂ (· ≤ ·) (expandGuessGrid st m1 x1 f1).minpars st.minpars
    ∧ List.Forall₂ (· ≤ ·) st.maxpars (expandGuessGrid st m1 x1 f1).maxpars
    ∧ (expandGuessGrid (expandGuessGrid st m1 x1 f1) m2 x2 f2).guessGrid
        = st.guessGrid ++ gridParspace m1 x1 f1 true ++ gridParspace m2 x2 f2 true
    ∧ (expandGuessGrid (expandGuessGrid st m1 x1 f1) m2 x2 f2).minpars
        = List.zipWith min (List.zipWith min st.minpars m1) m2
    ∧ (expandGuessGrid (expandGuessGrid st m1 x1 f1) m2 x2 f2).maxpars
        = List.zipWith max (List.zipWith max st.maxpars x1) x2 :=
  ⟨rfl, rfl, rfl,
   forall₂_zipWith_min_le st.minpars m1 hm1,
   forall₂_le_zipWith_max st.maxpars x1 hx1,
   rfl, rfl, rfl⟩

/-- Witness for C2: a concrete one-dimensional state expanded twice. -/
theorem expand_guess_grid_spec_witness :
    (expandGuessGrid ⟨[[0]], [0], [1]⟩ [2] [3] [1]).guessGrid
        = [[0]] ++ gridParspace [2] [3] [1] true
    ∧ (expandGuessGrid ⟨[[0]], [0], [1]⟩ [2] [3] [1]).minpars
        = List.zipWith min [0] [2]
    ∧ (expandGuessGrid ⟨[[0]], [0], [1]⟩ [2] [3] [1]).maxpars
        = List.zipWith max [1] [3]
    ∧ List.Forall₂ (· ≤ ·) (expandGuessGrid ⟨[[0]], [0], [1]⟩ [2] [3] [1]).minpars [0]
    ∧ List.Forall₂ (· ≤ ·) [1] (expandGuessGrid ⟨[[0]], [0], [1]⟩ [2] [3] [1]).maxpars
    ∧ (expandGuessGrid (expandGuessGrid ⟨[[0]], [0], [1]⟩ [2] [3] [1]) [-1] [5] [2]).guessGrid
        = [[0]] ++ gridParspace [2] [3] [1] true ++ gridParspace [-1] [5] [2] true
    ∧ (expandGuessGrid (expandGuessGrid ⟨[[0]], [0], [1]⟩ [2] [3] [1]) [-1] [5] [2]).minpars
        = List.zipWith min (List.zipWith min [0] [2]) [-1]
    ∧ (expandGuessGrid (expandGuessGrid ⟨[[0]], [0], [1]⟩ [2] [3] [1]) [-1] [5] [2]).maxpars
        = List.zipWith max (List.zipWith max [1] [3]) [5] :=
  expand_guess_grid_spec ⟨[[0]], [0], [1]⟩ [2] [3] [-1] [5] [1] [2] rfl rfl

end Multicube

namespace Multicube

/-! ## Model synthesizer shape validation (`SubCube.generate_model`, lines 214-231)

The shape safeguard in `generate_model`:
```
npars = self.specfit.fitter.npars
guess_grid = np.atleast_2d(guess_grid)
grid_shape = guess_grid.shape[:-1]
if ((len(grid_shape)>1 and grid_shape[-2:]!=self.cube.shape[1:]) or
    (len(grid_shape)>3) or (guess_grid.shape[-1]%npars)):
    raise ValueError(...)
```
No other exception is raised by `generate_model` for any input shape; in
particular there is no `NotImplementedError` in this method (the
`NotImplementedError` for spatially varying grids lives in `best_guess`,
line 293, and applies to *model* grids). -/

/-- Outcome of the shape safeguard: `ok` (model generation proceeds),
`invalidShape` (the generic `ValueError`), or `notSupported` (a distinct
not-yet-supported error, which the claim asserts for spatial grids). -/
inductive GenModelCheck where
  | ok
  | invalidShape
  | notSupported
  deriving DecidableEq

/-- `np.atleast_2d` on shapes: a 0-d array becomes `(1,1)`, a 1-d array
`(m,)` becomes `(1, m)`, higher-dimensional arrays are unchanged. -/
def atleast2d (shape : List ℕ) : List ℕ :=
  match shape with
  | [] => [1, 1]
  | [m] => [1, m]
  | s => s

/-- `grid_shape[-2:]`: the last two entries of a shape. -/
def lastTwo (l : List ℕ) : List ℕ :=
  l.drop (l.length - 2)

/-- The shape safeguard of `generate_model`: `shape` is the numpy shape of
the incoming `guess_grid`, `npars` the model parameter count, `(y, x)` the
spatial shape `cube.shape[1:]` of the data cube. -/
def validateGuessGridShape (shape : List ℕ) (npars : ℕ) (y x : ℕ) :
    GenModelCheck :=
  if (1 < (atleast2d shape).dropLast.length
        ∧ lastTwo (atleast2d shape).dropLast ≠ [y, x])
      ∨ 3 < (atleast2d shape).dropLast.length
      ∨ ((atleast2d shape).getLast?.getD 0) % npars ≠ 0
  then GenModelCheck.invalidShape
  else GenModelCheck.ok

/-- C6 (counterexample): a spatial `Y × X × P` guess grid whose spatial
dimensions match the cube passes the safeguard: `generate_model` does not
reject it with a not-supported error (it proceeds to generate a model for
every spatial position), contradicting the claim. -/
theorem generate_model_spatial_grid_cex :
    validateGuessGridShape [2, 2, 1] 1 2 2 = GenModelCheck.ok ∧
    validateGuessGridShape [2, 2, 1] 1 2 2 ≠ GenModelCheck.notSupported := by
  constructor <;> decide

/-- C6 (amended): `generate_model` accepts spatial guess grids: shapes
`Y × X × (p·npars)` and `N × Y × X × (p·npars)` matching the cube's spatial
dimensions pass the safeguard, and the only shape error it ever raises is
the generic invalid-shape `ValueError`, raised exactly when the spatial
dimensions mismatch, there are more than 3 leading axes, or the trailing
axis is not a multiple of the parameter count.  No distinct not-supported
error exists in `generate_model` (that error is raised by `best_guess` for
model grids with more than 2 axes). -/
theorem generate_model_shape_check_spec (y x p npars : ℕ) (hp : 0 < npars) :
    validateGuessGridShape [y, x, p * npars] npars y x = GenModelCheck.ok
    ∧ validateGuessGridShape [0, y, x, p * npars] npars y x = GenModelCheck.ok
    ∧ (∀ shape, validateGuessGridShape shape npars y x ≠ GenModelCheck.notSupported)
    ∧ (∀ shape, validateGuessGridShape shape npars y x = GenModelCheck.invalidShape
        ↔ ((1 < (atleast2d shape).dropLast.length
              ∧ lastTwo (atleast2d shape).dropLast ≠ [y, x])
            ∨ 3 < (atleast2d shape).dropLast.length
            ∨ ((atleast2d shape).getLast?.getD 0) % npars ≠ 0)) := by
  refine ⟨?_, ?_, ?_, ?_⟩
  · simp [validateGuessGridShape, atleast2d, lastTwo, Nat.mul_mod_left]
  · simp [validateGuessGridShape, atleast2d, lastTwo, Nat.mul_mod_left]
  · intro shape
    unfold validateGuessGridShape
    split <;> simp
  · intro shape
    unfold validateGuessGridShape
    split
    · next h => simpa using h
    · next h => simpa using h

/-- Witness for C6 at concrete spatial dimensions. -/
theorem generate_model_shape_check_spec_witness :
    validateGuessGridShape [2, 3, 2 * 2] 2 2 3 = GenModelCheck.ok
    ∧ validateGuessGridShape [0, 2, 3, 2 * 2] 2 2 3 = GenModelCheck.ok
    ∧ (∀ shape, validateGuessGridShape shape 2 2 3 ≠ GenModelCheck.notSupported)
    ∧ (∀ shape, validateGuessGridShape shape 2 2 3 = GenModelCheck.invalidShape
        ↔ ((1 < (atleast2d shape).dropLast.length
              ∧ lastTwo (atleast2d shape).dropLast ≠ [2, 3])
            ∨ 3 < (atleast2d shape).dropLast.length
            ∨ ((atleast2d shape).getLast?.getD 0) % 2 ≠ 0)) :=
  generate_model_shape_check_spec 2 3 2 2 (by decide)

end Multicube

namespace Multicube

/-! ## Memory budget resolution in `best_guess` (lines 297-316)

```
try:             (then) import psutil
    mem = psutil.virtual_memory().available
except ImportError:
    (then) import os
    try:
        memgb = os.popen("free -g").readlines()[1].split()[3]
    except IndexError:
        memgb = 8
        log.warn("Can't get the free RAM size, assuming %i GB" % memgb)
    memgb = memory_limit or memgb
    mem = int(memgb) * 2**30
threshold = self.cube.nbytes*model_grid.shape[0]*2
if mem < threshold: <iterate> else: <broadcast>
```
Note that `memory_limit` is read only inside the `except ImportError`
branch: when `psutil` is importable the override is ignored. -/

/-- Python truthiness of an optional float (`memory_limit or memgb`):
`None` and `0.0` are falsy. -/
def pyTruthy (q : Option ℚ) : Bool :=
  match q with
  | none => false
  | some v => v ≠ 0

/-- Python `int()` on a float value: truncation toward zero. -/
def pyInt (q : ℚ) : ℤ :=
  if 0 ≤ q then ⌊q⌋ else -⌊-q⌋

/-- The available-memory resolution of `best_guess`.  `psutilOk` is whether
`import psutil` succeeds and `psutilMem` the bytes it would report;
`freeG` is the gigabyte figure parsed from `free -g` (or `none` when that
raises `IndexError`, e.g. on Macs/Windows); `memLimit` is the caller's
`memory_limit` argument in GB.  Returns the byte count `mem` and whether
the conservative-default warning was emitted. -/
def resolveAvailableMem (psutilOk : Bool) (psutilMem : ℤ) (freeG : Option ℤ)
    (memLimit : Option ℚ) : ℤ × Bool :=
  if psutilOk then (psutilMem, false)
  else
    let memgbWarn : ℚ × Bool :=
      match freeG with
      | some g => ((g : ℚ), false)
      | none => (8, true)
    let memgb : ℚ := if pyTruthy memLimit then memLimit.getD 0 else memgbWarn.1
    (pyInt memgb * 2 ^ 30, memgbWarn.2)

/-- The broadcast footprint estimate
`threshold = self.cube.nbytes * model_grid.shape[0] * 2`. -/
def broadcastThreshold (cubeNbytes g : ℕ) : ℤ :=
  (cubeNbytes : ℤ) * (g : ℤ) * 2

/-- The tier dispatch `if mem < threshold: <iterate> else: <broadcast>`:
the full-broadcast tier runs exactly when `mem ≥ threshold`. -/
def usesBroadcast (mem threshold : ℤ) : Bool :=
  ¬ mem < threshold

/-- C8 (counterexample): with `psutil` importable and a caller-supplied
`memory_limit` of 4 GB, the resolved available memory is whatever `psutil`
reports (here 0 bytes), not the 4 GiB override demanded by the claim:
the override is ignored whenever `psutil` imports. -/
theorem memory_limit_ignored_with_psutil_cex :
    resolveAvailableMem true 0 none (some 4) = (0, false)
    ∧ (0 : ℤ) ≠ pyInt 4 * 2 ^ 30 := by
  constructor
  · rfl
  · decide

/-- C8 (amended): the broadcast footprint estimate is
`cube_bytes × G × 2` and the broadcast tier is selected exactly when the
resolved available memory is at least that estimate; but `memory_limit`
only overrides the available memory when `psutil` is unavailable (in the
`free -g` fallback branch, where a failed query degrades to a default of
8 GB with a warning, still overridable).  When `psutil` imports, its
figure is used and `memory_limit` is ignored. -/
theorem best_guess_memory_strategy (psutilMem : ℤ) (freeG : Option ℤ)
    (memLimit : Option ℚ) (m : ℚ) (cubeNbytes g : ℕ)
    (hsome : memLimit = some m) (hm : m ≠ 0) :
    broadcastThreshold cubeNbytes g = (cubeNbytes : ℤ) * (g : ℤ) * 2
    ∧ (∀ mem : ℤ, usesBroadcast mem (broadcastThreshold cubeNbytes g) = true
        ↔ broadcastThreshold cubeNbytes g ≤ mem)
    ∧ (resolveAvailableMem true psutilMem freeG memLimit).1 = psutilMem
    ∧ (resolveAvailableMem false psutilMem freeG memLimit).1 = pyInt m * 2 ^ 30
    ∧ (resolveAvailableMem false psutilMem none memLimit).2 = true
    ∧ (resolveAvailableMem false psutilMem none none)
        = (pyInt 8 * 2 ^ 30, true) := by
  refine ⟨rfl, ?_, rfl, ?_, ?_, ?_⟩
  · intro mem
    simp [usesBroadcast, not_lt]
  · have ht : pyTruthy (some m) = true := by
      simpa [pyTruthy] using hm
    simp [resolveAvailableMem, hsome, ht]
  · simp [resolveAvailableMem]
  · rfl

/-- Witness for C8 with `memory_limit = 4` GB. -/
theorem best_guess_memory_strategy_witness :
    broadcastThreshold 100 7 = (100 : ℤ) * (7 : ℤ) * 2
    ∧ (∀ mem : ℤ, usesBroadcast mem (broadcastThreshold 100 7) = true
        ↔ broadcastThreshold 100 7 ≤ mem)
    ∧ (resolveAvailableMem true 12345 (some 2) (some 4)).1 = 12345
    ∧ (resolveAvailableMem false 12345 (some 2) (some 4)).1 = pyInt 4 * 2 ^ 30
    ∧ (resolveAvailableMem false 12345 none (some 4)).2 = true
    ∧ (resolveAvailableMem false 12345 none none) = (pyInt 8 * 2 ^ 30, true) :=
  best_guess_memory_strategy 12345 (some 2) (some 4) 4 100 7 rfl (by norm_num)

end Multicube

namespace Multicube

/-! ## Signal-to-noise defaults (`SubCube.get_snr_map`, lines 441-474, and
`SubCube.get_mask`, lines 476-510)

When neither ranges nor masks are given:
```
default_cut = 0.33
i_low, i_high = int(round(self.xarr.size*0.33)), int(round(self.xarr.size*0.67))
signal = [[i_low+1], [i_high-1]]
noise  = [[0, i_high], [i_low, self.xarr.size-1]]
```
and `get_mask` sets `mask[low:high] = True` for every `(low, high)` pair
(after sorting the pair).  The body of `get_snr_map` contains no warning
call; `get_rms_map` / `get_signal_map` warn only when handed a `None`
mask, which never happens on this path. -/

/-- Python 2 `round` for the non-negative arguments used here
(round half away from zero), composed with `int()`. -/
def pyRound (q : ℚ) : ℤ :=
  ⌊q + 1 / 2⌋

/-- The rule-of-thirds indices `(i_low, i_high)` of `get_snr_map`.  The
float constants `0.33` and `1 - 0.33` are modelled as the exact rationals
`33/100` and `67/100`. -/
def thirdsIndices (size : ℕ) : ℤ × ℤ :=
  (pyRound ((size : ℚ) * (33 / 100)), pyRound ((size : ℚ) * (67 / 100)))

/-- `get_mask`: each `(low, high)` block marks channels `[low, high)` after
sorting the pair, and the blocks are OR-ed together. -/
def getMaskFn (blocks : List (ℤ × ℤ)) (c : ℕ) : Bool :=
  blocks.any (fun lh =>
    decide (min lh.1 lh.2 ≤ (c : ℤ) ∧ (c : ℤ) < max lh.1 lh.2))

/-- The default signal range `[[i_low+1], [i_high-1]]` of `get_snr_map`,
zipped into `(low, high)` blocks. -/
def defaultSignalBlocks (size : ℕ) : List (ℤ × ℤ) :=
  [((thirdsIndices size).1 + 1, (thirdsIndices size).2 - 1)]

/-- The default noise range `[[0, i_high], [i_low, size-1]]` of
`get_snr_map`, zipped into `(low, high)` blocks `(0, i_low)` and
`(i_high, size-1)`. -/
def defaultNoiseBlocks (size : ℕ) : List (ℤ × ℤ) :=
  [(0, (thirdsIndices size).1), ((thirdsIndices size).2, (size : ℤ) - 1)]

/-- `get_rms_map` warns exactly when it receives no noise mask. -/
def getRmsMapWarns (noiseMask : Option (ℕ → Bool)) : Bool :=
  noiseMask.isNone

/-- `get_signal_map` warns exactly when it receives no signal mask. -/
def getSignalMapWarns (signalMask : Option (ℕ → Bool)) : Bool :=
  signalMask.isNone

/-- Whether `get_snr_map` emits any warning on the default (no ranges, no
masks) path: its own body contains no warning call, and it always passes
the computed rule-of-thirds masks to `get_signal_map` / `get_rms_map`. -/
def getSnrMapDefaultEmitsWarning (size : ℕ) : Bool :=
  getSignalMapWarns (some (getMaskFn (defaultSignalBlocks size)))
    || getRmsMapWarns (some (getMaskFn (defaultNoiseBlocks size)))

/-- C9 (counterexample): for a 30-channel axis the thirds indices are
`(10, 20)`; channel 29 belongs to the outer two-thirds but is *not* in the
default noise mask (the upper noise block stops at `size-1 = 29`,
exclusive), channel 19 belongs to the inner third but is *not* in the
default signal mask, and no warning is emitted when the default heuristic
is used. -/
theorem snr_default_rule_of_thirds_cex :
    thirdsIndices 30 = (10, 20)
    ∧ getMaskFn (defaultNoiseBlocks 30) 29 = false
    ∧ getMaskFn (defaultSignalBlocks 30) 19 = false
    ∧ getSnrMapDefaultEmitsWarning 30 = false := by
  have h : thirdsIndices 30 = (10, 20) := by
    unfold thirdsIndices pyRound
    norm_num
  refine ⟨h, ?_, ?_, rfl⟩
  · unfold defaultNoiseBlocks
    rw [h]
    simp [getMaskFn]
  · unfold defaultSignalBlocks
    rw [h]
    simp [getMaskFn]

/-- C9 (amended): on the default path `get_snr_map` partitions the axis
only approximately into thirds: the noise mask covers channels
`[0, i_low) ∪ [i_high, size-1)` — the last channel is always excluded —
and the signal mask covers `[i_low+1, i_high-1)`, with
`i_low = round(0.33·size)` and `i_high = round(0.67·size)`; and no warning
is emitted when this default heuristic is used. -/
theorem get_snr_map_default_masks (size : ℕ) (iLow iHigh : ℤ)
    (hT : thirdsIndices size = (iLow, iHigh))
    (h0 : 0 ≤ iLow) (h12 : iLow + 1 ≤ iHigh - 1) (hs : iHigh ≤ (size : ℤ) - 1) :
    (∀ c : ℕ, getMaskFn (defaultNoiseBlocks size) c = true
        ↔ ((c : ℤ) < iLow ∨ (iHigh ≤ (c : ℤ) ∧ (c : ℤ) < (size : ℤ) - 1)))
    ∧ (∀ c : ℕ, getMaskFn (defaultSignalBlocks size) c = true
        ↔ (iLow + 1 ≤ (c : ℤ) ∧ (c : ℤ) < iHigh - 1))
    ∧ getSnrMapDefaultEmitsWarning size = false := by
  refine ⟨?_, ?_, rfl⟩
  · intro c
    unfold defaultNoiseBlocks
    rw [hT]
    simp only [getMaskFn, List.any_cons, List.any_nil, Bool.or_false,
      Bool.or_eq_true, decide_eq_true_eq]
    constructor
    · rintro (h | h) <;> omega
    · intro h
      rcases h with h | h
      · left; omega
      · right; omega
  · intro c
    unfold defaultSignalBlocks
    rw [hT]
    simp only [getMaskFn, List.any_cons, List.any_nil, Bool.or_false,
      Bool.or_eq_true, decide_eq_true_eq]
    omega

/-- Witness for C9 at a 30-channel axis. -/
theorem get_snr_map_default_masks_witness :
    (∀ c : ℕ, getMaskFn (defaultNoiseBlocks 30) c = true
        ↔ ((c : ℤ) < 10 ∨ (20 ≤ (c : ℤ) ∧ (c : ℤ) < (30 : ℤ) - 1)))
    ∧ (∀ c : ℕ, getMaskFn (defaultSignalBlocks 30) c = true
        ↔ (10 + 1 ≤ (c : ℤ) ∧ (c : ℤ) < 20 - 1))
    ∧ getSnrMapDefaultEmitsWarning 30 = false :=
  get_snr_map_default_masks 30 10 20
    (by unfold thirdsIndices pyRound; norm_num)
    (by norm_num) (by norm_num) (by norm_num)

end Multicube

namespace Multicube

/-! ## Overall-best selection in `best_guess` (lines 375-387)

```
(then) from scipy.stats import mode
model_mode = mode(best_map)
best_model_num = model_mode[0][0,0]
best_model_freq = model_mode[1][0,0]
best_model_frac = (float(best_model_freq) / np.prod(self.cube.shape[1:]))
if best_model_frac < .05: log.warn(...)
```
`scipy.stats.mode` defaults to `axis=0`, so for the 2-d `best_map` it
returns one (mode, count) pair per *column*, each the most frequent value
along the y axis (smallest value on ties); `[0,0]` then selects the pair
of column `x = 0` only. -/

/-- `scipy.stats.mode` along a 1-d slice: the most frequent value, with
ties broken by the smallest value, together with its count. -/
def scipyMode : List ℕ → ℕ × ℕ
  | [] => (0, 0)
  | v :: rest =>
    (v :: rest).foldl
      (fun acc w =>
        if acc.2 < (v :: rest).count w
            ∨ ((v :: rest).count w = acc.2 ∧ w < acc.1)
        then (w, (v :: rest).count w) else acc)
      (v, (v :: rest).count v)

/-- `best_map[:, 0]`: the first column of the best-model-index map,
`best_map` given as its list of rows. -/
def column0 (bm : List (List ℕ)) : List ℕ :=
  bm.filterMap List.head?

/-- `best_model_num = mode(best_map)[0][0,0]`: the mode of column 0. -/
def overallBestModel (bm : List (List ℕ)) : ℕ :=
  (scipyMode (column0 bm)).1

/-- `best_model_freq = mode(best_map)[1][0,0]`: the count of that mode in
column 0. -/
def overallBestFreq (bm : List (List ℕ)) : ℕ :=
  (scipyMode (column0 bm)).2

/-- `best_model_frac`: the column-0 mode count divided by the *total*
number of spatial pixels `np.prod(cube.shape[1:])`. -/
def overallBestFrac (bm : List (List ℕ)) (ytot xtot : ℕ) : ℚ :=
  (overallBestFreq bm : ℚ) / ((ytot * xtot : ℕ) : ℚ)

/-- The low-confidence diagnostic `best_model_frac < .05`. -/
def lowConfidenceWarn (bm : List (List ℕ)) (ytot xtot : ℕ) : Bool :=
  overallBestFrac bm ytot xtot < 5 / 100

/-- C5 (code bug, evaluated at the failing input): for the best-model map
`[[0,1],[0,1],[1,1]]` (3 rows y, 2 columns x, no SNR masking), the code
reports overall best model 0 — the mode of column 0 — although model 1 is
selected at 4 of the 6 pixels and model 0 at only 2; changing entries
outside column 0 cannot change the reported overall best. -/
theorem best_guess_mode_axis_eval :
    overallBestModel [[0, 1], [0, 1], [1, 1]] = 0
    ∧ (List.flatten [[0, 1], [0, 1], [1, 1]]).count 1 = 4
    ∧ (List.flatten [[0, 1], [0, 1], [1, 1]]).count 0 = 2
    ∧ overallBestModel [[0, 7], [0, 8], [1, 9]] = 0
    ∧ overallBestFreq [[0, 1], [0, 1], [1, 1]] = 2 := by
  refine ⟨?_, ?_, ?_, ?_, ?_⟩ <;> decide

end Multicube

namespace Multicube

/-! ## Residual computation in `best_guess` (lines 318-372)

The observed cube is a `(C, Y, X)` array, modelled as an index function
`cube : channel → y → x → ℚ` together with the channel count `C`; the
model grid is a `(G, C)` array modelled as a list of `G` spectra.  All
three tiers evaluate, per `(model, y, x)`,
`(cube[:, y, x] - model_grid[model]).std(axis over channels)`;
`numpy.std` is the population standard deviation
`sqrt(mean((d - mean d)²))`, modelled exactly over the reals. -/

/-- `numpy` mean of a 1-d array. -/
def npMean (xs : List ℚ) : ℚ :=
  xs.sum / (xs.length : ℚ)

/-- `numpy` population variance of a 1-d array. -/
def npVar (xs : List ℚ) : ℚ :=
  ((xs.map (fun v => (v - npMean xs) ^ 2)).sum) / (xs.length : ℚ)

/-- `numpy.std` of a 1-d array. -/
noncomputable def npStd (xs : List ℚ) : ℝ :=
  Real.sqrt (npVar xs)

/-- `cube[:, y, x]` as a list over the `C` channels. -/
def spectrumAt (c : ℕ) (cube : ℕ → ℕ → ℕ → ℚ) (y x : ℕ) : List ℚ :=
  (List.range c).map (fun ch => cube ch y x)

/-- Tier 1 (full broadcast, lines 362-363): entry `(m, y, x)` of
`(self.cube[None,:,:,:] - model_grid[:,:,None,None]).std(axis=1)`. -/
noncomputable def residualRmsBroadcast (c : ℕ) (cube : ℕ → ℕ → ℕ → ℚ)
    (modelGrid : List (List ℚ)) (m y x : ℕ) : ℝ :=
  npStd (List.zipWith (fun a b => a - b) (spectrumAt c cube y x)
    (modelGrid.getD m []))

/-- Tier 2 (per-pixel iteration, lines 322-328): entry `m` of
`(self.cube[None,:,y,x] - model_grid).std(axis=1)` at pixel `(y, x)`. -/
noncomputable def residualRmsPerPixel (c : ℕ) (cube : ℕ → ℕ → ℕ → ℚ)
    (modelGrid : List (List ℚ)) (m y x : ℕ) : ℝ :=
  npStd (List.zipWith (fun a b => a - b) (spectrumAt c cube y x)
    (modelGrid.getD m []))

/-- Tier 3 (fully nested iteration, lines 348-351): `resid_rms_xy[model_id]
= (self.cube[:,y,x] - model_grid[model_id]).std()`. -/
noncomputable def residualRmsNested (c : ℕ) (cube : ℕ → ℕ → ℕ → ℚ)
    (modelGrid : List (List ℚ)) (y x m : ℕ) : ℝ :=
  npStd (List.zipWith (fun a b => a - b) (spectrumAt c cube y x)
    (modelGrid.getD m []))

/-- All three tiers evaluate the same exact per-entry expression: in exact
arithmetic their residual values agree pointwise. -/
theorem residual_tiers_pointwise_eq (c : ℕ) (cube : ℕ → ℕ → ℕ → ℚ)
    (modelGrid : List (List ℚ)) (m y x : ℕ) :
    residualRmsBroadcast c cube modelGrid m y x
        = residualRmsPerPixel c cube modelGrid m y x
    ∧ residualRmsPerPixel c cube modelGrid m y x
        = residualRmsNested c cube modelGrid y x m :=
  ⟨rfl, rfl⟩

/-! ## The SNR-cut masking step (lines 365-367) and `get_slice_mask`

```
if sn_cut:
    snr_mask = self.snr_map > sn_cut
    residual_rms[self.get_slice_mask(snr_mask)] = np.inf
```
`get_slice_mask` repeats the 2-d mask along a new leading axis of size
`self.xarr.size` (the *channel* count `C`), but `residual_rms` has leading
axis of size `G` (the model count): boolean-mask assignment raises
`IndexError` whenever `C ≠ G`.  When `C = G` the assignment goes through,
but `snr_mask = snr_map > sn_cut` marks the *passing* pixels, so their
residuals (not the failing ones) are set to `inf`.  `np.inf` is modelled
as `⊤ : WithTop ℝ`. -/

def applySnCut (g c : ℕ) (snCut : Option ℚ) (snr : ℕ → ℕ → ℚ)
    (resid : ℕ → ℕ → ℕ → ℝ) : Except PyErr (ℕ → ℕ → ℕ → WithTop ℝ) :=
  if pyTruthy snCut then
    if c ≠ g then Except.error PyErr.indexError
    else Except.ok (fun m y x =>
      if snr y x > snCut.getD 0 then (⊤ : WithTop ℝ)
      else ((resid m y x : ℝ) : WithTop ℝ))
  else Except.ok (fun m y x => ((resid m y x : ℝ) : WithTop ℝ))

/-- `np.argmin` helper: current index, best index and best value. -/
def argminAux [LinearOrder α] : List α → ℕ → ℕ → α → ℕ
  | [], _, bi, _ => bi
  | v :: rest, i, bi, bv =>
    if v < bv then argminAux rest (i + 1) i v
    else argminAux rest (i + 1) bi bv

/-- `np.argmin` over a 1-d array: index of the first minimum (`0` on an
empty array, though numpy raises there). -/
def npArgmin [LinearOrder α] : List α → ℕ
  | [] => 0
  | v :: rest => argminAux rest 1 0 v

/-- `np.min` over a 1-d array with an explicit default for the empty case
(numpy raises there; `best_guess` only calls it with `G ≥ 1` models). -/
def npMinD [LinearOrder α] : List α → α → α
  | [], d => d
  | v :: rest, _ => rest.foldl min v

/-- The final map extraction (lines 369-370):
`best_map = np.argmin(residual_rms, axis=0)` and
`rmsmin_map = residual_rms.min(axis=0)`, downstream of the sn-cut step. -/
noncomputable def bestGuessFinalMaps (g c : ℕ) (snCut : Option ℚ)
    (snr : ℕ → ℕ → ℚ) (resid : ℕ → ℕ → ℕ → ℝ) :
    Except PyErr ((ℕ → ℕ → ℕ) × (ℕ → ℕ → WithTop ℝ)) :=
  (applySnCut g c snCut snr resid).map (fun r =>
    (fun y x => npArgmin ((List.range g).map (fun m => r m y x)),
     fun y x => npMinD ((List.range g).map (fun m => r m y x)) ⊤))

lemma argminAux_lt [LinearOrder α] (rest : List α) :
    ∀ (i bi : ℕ) (bv : α), bi < i → argminAux rest i bi bv < i + rest.length := by
  induction rest with
  | nil => intro i bi bv h; simpa using h.trans_le (Nat.le_refl i)
  | cons v vs ih =>
    intro i bi bv h
    simp only [argminAux, List.length_cons]
    split
    · have := ih (i + 1) i v (Nat.lt_succ_self i)
      omega
    · have := ih (i + 1) bi bv (by omega)
      omega

lemma npArgmin_lt_length [LinearOrder α] (l : List α) (h : l ≠ []) :
    npArgmin l < l.length := by
  cases l with
  | nil => exact absurd rfl h
  | cons v rest =>
    have := argminAux_lt rest 1 0 v (by omega)
    simp only [npArgmin, List.length_cons]
    omega

end Multicube

namespace Multicube

/-- C4 (code bug, evaluated at the failing inputs): with a positive
`sn_cut = 1` the masking step of the broadcast / per-pixel tiers raises
`IndexError` for a model grid of `G = 2` models on a `C = 3`-channel cube
(the boolean slice mask has leading axis `C`, `residual_rms` has leading
axis `G`); when `C = G = 2` the step succeeds but is inverted: a pixel
with SNR `0` (failing the cutoff) keeps its finite residual — so it is
matched to a model, not assigned NaN — while a pixel with SNR `2`
(passing) has its residuals set to `inf` for every model. -/
theorem best_guess_sn_cut_mask_eval :
    applySnCut 2 3 (some 1) (fun _ _ => (0 : ℚ)) (fun _ _ _ => (0 : ℝ))
        = Except.error PyErr.indexError
    ∧ (∃ r, applySnCut 2 2 (some 1) (fun _ _ => (0 : ℚ)) (fun _ _ _ => (0 : ℝ))
          = Except.ok r ∧ r 0 0 0 = (((0 : ℝ) : WithTop ℝ)))
    ∧ (∃ r, applySnCut 2 2 (some 1) (fun _ _ => (2 : ℚ)) (fun _ _ _ => (0 : ℝ))
          = Except.ok r ∧ r 0 0 0 = (⊤ : WithTop ℝ)) := by
  refine ⟨?_, ⟨_, rfl, ?_⟩, ⟨_, rfl, ?_⟩⟩
  · rfl
  · norm_num
  · norm_num

/-- C10: with `sn_cut` equal to exactly `0` the cutoff test `if sn_cut:`
is false by Python truthiness, so the final maps are identical to those of
a run with no cutoff at all: no masking error can occur, and every spatial
pixel — regardless of its SNR, including SNR `0` or negative — receives
the plain `argmin` model index, a valid index below the model count. -/
theorem best_guess_zero_sn_cut (g c : ℕ) (hg : 0 < g)
    (snr : ℕ → ℕ → ℚ) (resid : ℕ → ℕ → ℕ → ℝ) :
    bestGuessFinalMaps g c (some 0) snr resid
        = bestGuessFinalMaps g c none snr resid
    ∧ ∃ maps, bestGuessFinalMaps g c (some 0) snr resid = Except.ok maps
        ∧ ∀ y x, maps.1 y x < g := by
  have heq : bestGuessFinalMaps g c (some 0) snr resid
      = bestGuessFinalMaps g c none snr resid := by
    unfold bestGuessFinalMaps applySnCut pyTruthy
    norm_num
  have happ : bestGuessFinalMaps g c (some 0) snr resid
      = Except.ok
        (fun y x => npArgmin ((List.range g).map
            (fun m => ((resid m y x : ℝ) : WithTop ℝ))),
         fun y x => npMinD ((List.range g).map
            (fun m => ((resid m y x : ℝ) : WithTop ℝ))) ⊤) := by
    unfold bestGuessFinalMaps applySnCut pyTruthy
    norm_num
    rfl
  refine ⟨heq, _, happ, ?_⟩
  intro y x
  have hne : ((List.range g).map
      (fun m => ((resid m y x : ℝ) : WithTop ℝ))) ≠ [] := by
    simp only [ne_eq, List.map_eq_nil_iff, List.range_eq_nil]
    omega
  have := npArgmin_lt_length _ hne
  simpa using this

/-- Witness for C10 with one model, one channel and constant data. -/
theorem best_guess_zero_sn_cut_witness :
    bestGuessFinalMaps 1 1 (some 0) (fun _ _ => -1) (fun _ _ _ => (0 : ℝ))
        = bestGuessFinalMaps 1 1 none (fun _ _ => -1) (fun _ _ _ => (0 : ℝ))
    ∧ ∃ maps, bestGuessFinalMaps 1 1 (some 0) (fun _ _ => -1)
          (fun _ _ _ => (0 : ℝ)) = Except.ok maps
        ∧ ∀ y x, maps.1 y x < 1 :=
  best_guess_zero_sn_cut 1 1 (by norm_num) (fun _ _ => -1) (fun _ _ _ => (0 : ℝ))

end Multicube

namespace Multicube

/-! ## Tier dispatch and error handling in `best_guess` (lines 313-370)

```
if mem < threshold:
    try:
        if type(model_grid) is not np.ndarray:  # assume memmap type
            raise MemoryError(...)
        residual_rms = np.empty(...)            # tier 2 (per-pixel loop)
        <per-pixel loop fills residual_rms>
    except MemoryError:
        best_map = np.empty(...); rmsmin_map = np.empty(...)
        <tier 3 (fully nested loop) fills best_map / rmsmin_map>
else:
    residual_rms = <tier 1 (full broadcast)>    # no try/except here

if sn_cut:
    residual_rms[self.get_slice_mask(snr_mask)] = np.inf
best_map   = np.argmin(residual_rms, axis=0)
rmsmin_map = residual_rms.min(axis=0)
```
The `except MemoryError` handler covers only the memmap check and the
tier-2 computation; the tier-1 broadcast in the `else` branch is not
guarded, so a `MemoryError` there propagates.  In the handler (tier 3)
the local `residual_rms` is never assigned, yet the lines after the
`if/else` read it unconditionally, so the tier-3 path always ends in
`UnboundLocalError` and its computed maps are discarded.

`memmap` abstracts `type(model_grid) is not np.ndarray`; `oomPerPixel` /
`oomBroadcast` abstract whether the tier-2 `np.empty` allocation or the
tier-1 broadcast raises `MemoryError`.  The result lists the tiers whose
computations run, paired with the final outcome: the tier whose
`residual_rms` reaches the `argmin` step, or the error that escapes. -/

/-- The three residual-computation tiers. -/
inductive RunTier where
  | broadcast
  | perPixel
  | nested
  deriving DecidableEq

/-- The post-`if/else` masking and `argmin` step applied to a bound
`residual_rms` produced by tier `src` (the `IndexError` is the slice-mask
shape mismatch of `applySnCut`, raised when `sn_cut` is truthy and the
channel count differs from the model count). -/
def finalizeResidual (src : RunTier) (snCutTruthy : Bool) (g c : ℕ) :
    Except PyErr RunTier :=
  if snCutTruthy ∧ c ≠ g then Except.error PyErr.indexError
  else Except.ok src

/-- The dispatch-and-error-flow of `best_guess` residual computation. -/
def bestGuessResidualFlow (mem threshold : ℤ) (memmap oomPerPixel oomBroadcast : Bool)
    (snCutTruthy : Bool) (g c : ℕ) : List RunTier × Except PyErr RunTier :=
  if mem < threshold then
    if memmap then
      ([RunTier.nested], Except.error PyErr.unboundLocal)
    else if oomPerPixel then
      ([RunTier.perPixel, RunTier.nested], Except.error PyErr.unboundLocal)
    else
      ([RunTier.perPixel], finalizeResidual RunTier.perPixel snCutTruthy g c)
  else
    if oomBroadcast then
      ([RunTier.broadcast], Except.error PyErr.memoryError)
    else
      ([RunTier.broadcast], finalizeResidual RunTier.broadcast snCutTruthy g c)

/-- C3 (code bug, evaluated at the failing input): the broadcast and
per-pixel tiers complete and feed the final maps, and their residual
values agree pointwise (`residual_tiers_pointwise_eq`); but whenever the
nested tier runs — here for a memmapped model grid with `mem < threshold`
— `best_guess` ends in `UnboundLocalError`, because `residual_rms` was
never assigned in the `except MemoryError` branch yet is read by the
unconditional `argmin` step, which also discards the maps tier 3 computed:
the nested tier can never produce the same result as the other two. -/
theorem best_guess_nested_tier_crashes :
    bestGuessResidualFlow 10 5 false false false false 1 1
        = ([RunTier.broadcast], Except.ok RunTier.broadcast)
    ∧ bestGuessResidualFlow 0 5 false false false false 1 1
        = ([RunTier.perPixel], Except.ok RunTier.perPixel)
    ∧ bestGuessResidualFlow 0 5 true false false false 1 1
        = ([RunTier.nested], Except.error PyErr.unboundLocal)
    ∧ bestGuessResidualFlow 0 5 true false false true 1 1
        = ([RunTier.nested], Except.error PyErr.unboundLocal) := by
  refine ⟨?_, ?_, ?_, ?_⟩ <;> rfl

/-- C7 (counterexample): with enough estimated memory
(`mem = 10 ≥ threshold = 5`) the broadcast tier runs unguarded; an
out-of-memory error during the broadcast escapes `best_guess` as an
uncaught `MemoryError` — no fallback to a slower tier happens,
contradicting the claim. -/
theorem broadcast_oom_aborts_cex :
    bestGuessResidualFlow 10 5 false false true false 1 1
        = ([RunTier.broadcast], Except.error PyErr.memoryError) := by
  rfl

/-- C7 (amended): the `except MemoryError` handler of `best_guess` covers
the memmap check and the per-pixel tier: a `MemoryError` there is caught
and triggers fallback to the fully nested tier (no `MemoryError`
escapes).  The full-broadcast tier is only protected proactively, by the
up-front memory estimate; a `MemoryError` raised during the broadcast
itself is not caught and aborts `best_guess`. -/
theorem best_guess_memoryerror_handling
    (mem1 thr1 mem2 thr2 : ℤ) (oomBC snc : Bool) (g c : ℕ)
    (h1 : mem1 < thr1) (h2 : thr2 ≤ mem2) :
    (RunTier.nested ∈ (bestGuessResidualFlow mem1 thr1 true false oomBC snc g c).1
      ∧ (bestGuessResidualFlow mem1 thr1 true false oomBC snc g c).2
          ≠ Except.error PyErr.memoryError)
    ∧ (RunTier.nested ∈ (bestGuessResidualFlow mem1 thr1 false true oomBC snc g c).1
      ∧ (bestGuessResidualFlow mem1 thr1 false true oomBC snc g c).2
          ≠ Except.error PyErr.memoryError)
    ∧ (bestGuessResidualFlow mem2 thr2 false false true snc g c).2
        = Except.error PyErr.memoryError := by
  have hlt : mem1 < thr1 := h1
  have hnlt : ¬ mem2 < thr2 := not_lt.2 h2
  unfold bestGuessResidualFlow
  rw [if_pos hlt, if_pos hlt, if_neg hnlt]
  refine ⟨⟨?_, ?_⟩, ⟨?_, ?_⟩, ?_⟩
  · simp
  · simp
  · simp
  · simp
  · simp

/-- Witness for C7 at concrete memory figures. -/
theorem best_guess_memoryerror_handling_witness :
    (RunTier.nested ∈ (bestGuessResidualFlow 0 5 true false false false 2 3).1
      ∧ (bestGuessResidualFlow 0 5 true false false false 2 3).2
          ≠ Except.error PyErr.memoryError)
    ∧ (RunTier.nested ∈ (bestGuessResidualFlow 0 5 false true false false 2 3).1
      ∧ (bestGuessResidualFlow 0 5 false true false false 2 3).2
          ≠ Except.error PyErr.memoryError)
    ∧ (bestGuessResidualFlow 9 5 false false true false 2 3).2
        = Except.error PyErr.memoryError :=
  best_guess_memoryerror_handling 0 5 9 5 false false 2 3 (by norm_num) (by norm_num)

end Multicube
